import Mathlib

/-!
Shallow embedding of the nuffield-book-classes repository.

Source layout:
  src/src/booker.py  -- current Booker class (login scraping, auth exchange,
                        slot query/normalization, matching, checkout)
  src/src/lane.py    -- Lane enum with UNKNOWN fallback and Lane.get
  src/main.py        -- older duplicate of the same flow (Lane enum without
                        UNKNOWN; transform indexes the enum directly) plus the
                        CLI entry point main() with the booking-open-hour gate
  src/src/log.py     -- logging helper (no behavior modeled; logging is pure
                        side text)

Python exceptions are modeled by the PyError type; fallible steps return
Except PyError.  Network I/O is modeled by an Env structure holding the
already-parsed responses the portal would return, and each operation also
reports the list of network actions it performed, so that claims about
"no additional network call" and "before any credential POST" are statable.
Python's functools.cached_property is modeled by explicit Option-valued cache
fields threaded through the accessors (compute on first access, store, and
never recompute).
-/

/-- Python exception kinds raised by the modeled code paths. `loginError` and
`stopIteration` map to the classes raised explicitly in booker.py; the others
are the builtin exceptions the interpreter raises at the modeled spots. -/
inductive PyError where
  | loginError (msg : String)
  | keyError
  | indexError
  | attributeError
  | valueError
  | stopIteration
deriving DecidableEq, Repr

/-- Decidable equality on Except values, used to evaluate the model on
concrete inputs. -/
instance exceptDecEq {ε α : Type} [DecidableEq ε] [DecidableEq α] :
    DecidableEq (Except ε α) := fun x y =>
  match x, y with
  | Except.ok a, Except.ok b =>
    if h : a = b then isTrue (by rw [h])
    else isFalse (fun hc => by cases hc; exact h rfl)
  | Except.error a, Except.error b =>
    if h : a = b then isTrue (by rw [h])
    else isFalse (fun hc => by cases hc; exact h rfl)
  | Except.ok _, Except.error _ => isFalse (fun hc => by cases hc)
  | Except.error _, Except.ok _ => isFalse (fun hc => by cases hc)

/-- Lane enum from src/src/lane.py (members UNKNOWN, SLOW, MEDIUM, FAST). -/
inductive Lane where
  | UNKNOWN
  | SLOW
  | MEDIUM
  | FAST
deriving DecidableEq, Repr

/-- Member name of a Lane value, as Python's `lane.name` / `str(lane)` tail. -/
def Lane.name : Lane → String
  | .UNKNOWN => "UNKNOWN"
  | .SLOW => "SLOW"
  | .MEDIUM => "MEDIUM"
  | .FAST => "FAST"

/-- Member lookup `Lane[key]` on the src/src/lane.py enum: succeeds exactly on
the four member names. -/
def Lane.ofKey? (key : String) : Option Lane :=
  if key = "UNKNOWN" then some .UNKNOWN
  else if key = "SLOW" then some .SLOW
  else if key = "MEDIUM" then some .MEDIUM
  else if key = "FAST" then some .FAST
  else none

/-- `Lane[key]` as the fallible Python indexing operation (KeyError on miss). -/
def laneIndex (key : String) : Except PyError Lane :=
  match Lane.ofKey? key with
  | none => Except.error PyError.keyError
  | some l => Except.ok l

/-- `Lane.get` from src/src/lane.py: try `Lane[key]`, catch KeyError and
return UNKNOWN.  Total by construction. -/
def Lane.get (key : String) : Lane :=
  match laneIndex key with
  | Except.ok l => l
  | Except.error _ => Lane.UNKNOWN

/-- Member lookup on the older Lane enum of src/main.py, which has only the
three members SLOW, MEDIUM, FAST and no UNKNOWN fallback. -/
def laneOfKeyMain? (key : String) : Option Lane :=
  if key = "SLOW" then some .SLOW
  else if key = "MEDIUM" then some .MEDIUM
  else if key = "FAST" then some .FAST
  else none

/-- Value of an ASCII digit character. -/
def digitVal (c : Char) : Option Nat :=
  if c.isDigit then some (c.toNat - 48) else none

/-- Accumulating base-10 read of a character list; fails on a non-digit. -/
def digitsToNatAux : List Char → Nat → Option Nat
  | [], acc => some acc
  | c :: cs, acc =>
    match digitVal c with
    | none => none
    | some d => digitsToNatAux cs (acc * 10 + d)

/-- Python `int(s)` restricted to the nonempty all-digit strings the code
feeds it (no sign, no whitespace). -/
def pyInt? (s : String) : Option Nat :=
  match s.data with
  | [] => none
  | cs => digitsToNatAux cs 0

/-- The `{minute:02d}` format: zero-padded two-digit rendering for m < 100. -/
def formatMinute (m : Nat) : String :=
  if m < 10 then "0" ++ toString m else toString m

/-- The code's start-time computation `int(f"{hour:d}{minute:02d}")`:
decimal rendering of the hour concatenated with the zero-padded minute,
read back as an integer. -/
def startTimeOf (h m : Nat) : Nat :=
  (pyInt? (toString h ++ formatMinute m)).getD 0

/-- Split a character list at every occurrence of `sep` (Python
`s.split(sep)` for a one-character separator). -/
def splitOnCharAux (sep : Char) : List Char → List Char → List (List Char)
  | [], acc => [acc.reverse]
  | c :: cs, acc =>
    if c = sep then acc.reverse :: splitOnCharAux sep cs []
    else splitOnCharAux sep cs (c :: acc)

/-- Python `s.split(sep)` for a one-character separator. -/
def splitOnChar (sep : Char) (s : String) : List String :=
  (splitOnCharAux sep s.data []).map String.mk

/-- Python `s.upper()` on the ASCII range (sufficient for the lane words the
code compares). -/
def pyUpper (s : String) : String :=
  String.mk (s.data.map Char.toUpper)

/-- A clock field of `strptime` (`%H` or `%M`): one or two digits, value below
the bound. -/
def parseClockField? (s : String) (bound : Nat) : Option Nat :=
  if 1 ≤ s.length ∧ s.length ≤ 2 then
    match pyInt? s with
    | some n => if n < bound then some n else none
    | none => none
  else none

/-- Model of `datetime.strptime(s, "%Y-%m-%dT%H:%M:%S%z")` restricted to the
hour/minute projection the code uses: the string must split into a dashed
date part and a colon-separated time part whose first two fields are a valid
hour (0-23) and minute (0-59).  Failure models the ValueError strptime
raises on a malformed string. -/
def parseDatetime? (s : String) : Option (Nat × Nat) :=
  match splitOnChar 'T' s with
  | [date, time] =>
    if (splitOnChar '-' date).length = 3 then
      match splitOnChar ':' time with
      | hh :: mm :: rest =>
        if rest = [] then none
        else
          match parseClockField? hh 24, parseClockField? mm 60 with
          | some h, some m => some (h, m)
          | _, _ => none
      | _ => none
    else none
  | _ => none

/-- Raw slot dict from the provider's events JSON, with the four keys
Booker._transform reads. -/
structure RawSlot where
  datetime : String
  description : String
  id : Int
  event_chain_id : Int
deriving DecidableEq, Repr

/-- Normalized slot dict produced by Booker._transform. -/
structure NormalizedSlot where
  start_time : Int
  lane : Lane
  event_id : Int
  event_chain_id : Int
deriving DecidableEq, Repr

/-- First word of the description: `description.split(" ", 1)[0]` (empty
string input gives the empty word, as in Python). -/
def firstWord (s : String) : String :=
  (splitOnChar ' ' s).headD ""

/-- Booker._transform from src/src/booker.py: parse the timestamp, map the
uppercased first description word through Lane.get, copy the two ids. -/
def transform (slot : RawSlot) : Except PyError NormalizedSlot :=
  match parseDatetime? slot.datetime with
  | none => Except.error PyError.valueError
  | some (h, m) =>
    Except.ok
      { start_time := (startTimeOf h m : Int)
        lane := Lane.get (pyUpper (firstWord slot.description))
        event_id := slot.id
        event_chain_id := slot.event_chain_id }

/-- Booker._transform from src/main.py: identical except the lane is obtained
by direct enum indexing `Lane[word.upper()]` on the three-member enum, so an
unrecognized first word raises KeyError instead of falling back to UNKNOWN. -/
def transformMain (slot : RawSlot) : Except PyError NormalizedSlot :=
  match parseDatetime? slot.datetime with
  | none => Except.error PyError.valueError
  | some (h, m) =>
    match laneOfKeyMain? (pyUpper (firstWord slot.description)) with
    | none => Except.error PyError.keyError
    | some lane =>
      Except.ok
        { start_time := (startTimeOf h m : Int)
          lane := lane
          event_id := slot.id
          event_chain_id := slot.event_chain_id }

/-- BookingRequest dict built by Booker._get_first_matching. -/
structure BookingRequest where
  event_id : Int
  event_chain_id : Int
  member_id : Int
deriving DecidableEq, Repr

/-- The match predicate of the generator in Booker._get_first_matching:
`slot["lane"] == lane and slot["start_time"] == start_time`. -/
def matchesFilter (lane : Lane) (start_time : Int) (s : NormalizedSlot) : Bool :=
  s.lane == lane && s.start_time == start_time


/-- Network actions the Booker can issue, in the order the code issues them.
`postCredentials` is the credential POST to `{tenant_base}/SelfAsserted`. -/
inductive NetAction where
  | getLoginPage
  | postCredentials
  | getConfirmed
  | postCode
  | postSsoExchange
  | getEvents
  | postBasketAdd
  | postCheckout
deriving DecidableEq, Repr

/-- One member record of the auth-info JSON (`{"id": ...}`); a missing key is
`none`. -/
structure MemberJson where
  id : Option Int
deriving DecidableEq, Repr

/-- The `"_embedded"` object of the auth-info JSON; `members` is `none` when
the `"members"` key is absent. -/
structure EmbeddedJson where
  members : Option (List MemberJson)
deriving DecidableEq, Repr

/-- Parsed auth-info JSON returned by the SSO exchange POST; each `Option`
models a possibly-absent key. -/
structure AuthInfoJson where
  auth_token : Option String
  embedded : Option EmbeddedJson
deriving DecidableEq, Repr

/-- The environment: parsed content of the responses the portal returns at
each scraping/parsing point.  `loginScript` is the string content of the
first `script[data-container]` tag of the idaaslogin page (`none` when the
tag is absent); `confirmFormAction` / `confirmCodeValue` are the `form#auto`
action and `input#code` value of the confirmation page (`none` when the
element is absent); `ssoAttrs` holds the `member-sso-login` and `company-id`
attributes of the marked div (`none` when no such div exists); `authInfo` is
the parsed JSON body of the SSO-exchange response. -/
structure Env where
  loginScript : Option String
  confirmFormAction : Option String
  confirmCodeValue : Option String
  ssoAttrs : Option (String × String)
  authInfo : AuthInfoJson
deriving DecidableEq, Repr

/-- The cached_property slots of one Booker instance: `none` = not yet
computed.  (`login_config` caches the scraped SETTINGS payload string; the
JSON decoding of that payload into URL fragments is not modeled because no
claim depends on it.) -/
structure BState where
  login_config : Option String := none
  auth_info : Option AuthInfoJson := none
  sso_token : Option String := none
  member_id : Option Int := none
deriving DecidableEq, Repr

/-- The empty cache state a freshly constructed Booker starts from. -/
def BState.empty : BState := {}

/-- Characters of a line: everything up to the first newline (regex `.` does
not match a newline). -/
def lineOf (cs : List Char) : List Char :=
  cs.takeWhile (fun c => c ≠ '\n')

/-- Everything before the last semicolon of the list, or `none` when it holds
no semicolon (the greedy `(.*);` group). -/
def beforeLastSemi? (cs : List Char) : Option (List Char) :=
  match cs.reverse.dropWhile (fun c => c ≠ ';') with
  | [] => none
  | _ :: rest => some rest.reverse

/-- Scan for the leftmost occurrence of `var SETTINGS = ` that is followed by
a semicolon on the same line; return the greedy group between them. -/
def settingsSearchAux : List Char → Option (List Char)
  | [] => none
  | c :: rest =>
    if List.isPrefixOf ("var SETTINGS = ".data) (c :: rest) then
      match beforeLastSemi? (lineOf (List.drop ("var SETTINGS = ".data).length (c :: rest))) with
      | some grp => some grp
      | none => settingsSearchAux rest
    else settingsSearchAux rest

/-- Model of `re.search(r"var SETTINGS = (.*);", s)`: the matched group, or
`none` when the pattern is absent. -/
def settingsSearch (s : String) : Option String :=
  (settingsSearchAux s.data).map (fun cs => String.mk cs)

/-- The scraping part of Booker._login_config: `soup.find("script",
data-container).string` (AttributeError on a missing tag), then the SETTINGS
regex search, raising LoginError exactly when the regex finds no match. -/
def loginConfigScrape (env : Env) : Except PyError String :=
  match env.loginScript with
  | none => Except.error PyError.attributeError
  | some s =>
    match settingsSearch s with
    | none => Except.error (PyError.loginError "Unable to scrape login config!")
    | some grp => Except.ok grp

/-- Result triple of one cached accessor call: the value or exception, the
updated cache state, and the network actions performed by this call. -/
abbrev Step (α : Type) := Except PyError α × BState × List NetAction

/-- Cached accessor Booker._login_config: on a cache hit return the stored
value with no network action; otherwise GET the login page and scrape it,
caching only on success (cached_property does not cache a raised value). -/
def accessLoginConfig (env : Env) (st : BState) : Step String :=
  match st.login_config with
  | some v => (Except.ok v, st, [])
  | none =>
    match loginConfigScrape env with
    | Except.error e => (Except.error e, st, [NetAction.getLoginPage])
    | Except.ok v => (Except.ok v, { st with login_config := some v }, [NetAction.getLoginPage])

/-- Booker._login: reads the cached login config (its first access GETs the
login page) before any other request, then POSTs the credentials, GETs the
confirmation page, scrapes `form#auto` and `input#code` (AttributeError on a
miss), POSTs the code, and scrapes the SSO div (AttributeError on a miss),
returning the `member-sso-login` and `company-id` attributes. -/
def loginSteps (env : Env) (st : BState) : Step (String × String) :=
  match accessLoginConfig env st with
  | (Except.error e, st1, tr) => (Except.error e, st1, tr)
  | (Except.ok _cfg, st1, tr) =>
    let tr1 := tr ++ [NetAction.postCredentials, NetAction.getConfirmed]
    match env.confirmFormAction with
    | none => (Except.error PyError.attributeError, st1, tr1)
    | some _action =>
      match env.confirmCodeValue with
      | none => (Except.error PyError.attributeError, st1, tr1)
      | some _code =>
        let tr2 := tr1 ++ [NetAction.postCode]
        match env.ssoAttrs with
        | none => (Except.error PyError.attributeError, st1, tr2)
        | some sc => (Except.ok sc, st1, tr2)

/-- Cached accessor Booker._auth_info: on a miss run the login flow, POST the
SSO token to the exchange endpoint and keep the parsed JSON body. -/
def accessAuthInfo (env : Env) (st : BState) : Step AuthInfoJson :=
  match st.auth_info with
  | some v => (Except.ok v, st, [])
  | none =>
    match loginSteps env st with
    | (Except.error e, st1, tr) => (Except.error e, st1, tr)
    | (Except.ok _tc, st1, tr) =>
      (Except.ok env.authInfo, { st1 with auth_info := some env.authInfo },
        tr ++ [NetAction.postSsoExchange])

/-- The subscript `auth_info["auth_token"]` (KeyError when absent). -/
def ssoTokenLookup (a : AuthInfoJson) : Except PyError String :=
  match a.auth_token with
  | none => Except.error PyError.keyError
  | some t => Except.ok t

/-- The subscript chain `auth_info["_embedded"]["members"][0]["id"]`:
KeyError on a missing key, IndexError on an empty members list. -/
def memberIdLookup (a : AuthInfoJson) : Except PyError Int :=
  match a.embedded with
  | none => Except.error PyError.keyError
  | some e =>
    match e.members with
    | none => Except.error PyError.keyError
    | some [] => Except.error PyError.indexError
    | some (m :: _) =>
      match m.id with
      | none => Except.error PyError.keyError
      | some i => Except.ok i

/-- Cached accessor Booker._sso_token: `self._auth_info["auth_token"]`. -/
def accessSsoToken (env : Env) (st : BState) : Step String :=
  match st.sso_token with
  | some v => (Except.ok v, st, [])
  | none =>
    match accessAuthInfo env st with
    | (Except.error e, st1, tr) => (Except.error e, st1, tr)
    | (Except.ok a, st1, tr) =>
      match ssoTokenLookup a with
      | Except.error e => (Except.error e, st1, tr)
      | Except.ok tok => (Except.ok tok, { st1 with sso_token := some tok }, tr)

/-- Cached accessor Booker._member_id:
`self._auth_info["_embedded"]["members"][0]["id"]`. -/
def accessMemberId (env : Env) (st : BState) : Step Int :=
  match st.member_id with
  | some v => (Except.ok v, st, [])
  | none =>
    match accessAuthInfo env st with
    | (Except.error e, st1, tr) => (Except.error e, st1, tr)
    | (Except.ok a, st1, tr) =>
      match memberIdLookup a with
      | Except.error e => (Except.error e, st1, tr)
      | Except.ok i => (Except.ok i, { st1 with member_id := some i }, tr)

/-- Booker._get_first_matching: `next` over the filtering generator.  When no
slot matches both predicates the generator is exhausted and StopIteration is
raised without ever touching `self._member_id`; when a match exists, the
first matching slot (in list order) is projected into a BookingRequest whose
member_id is the cached member identifier (the access may itself raise, see
C10). -/
def get_first_matching (env : Env) (st : BState) (slots : List NormalizedSlot)
    (lane : Lane) (start_time : Int) : Step BookingRequest :=
  match slots.find? (matchesFilter lane start_time) with
  | none => (Except.error PyError.stopIteration, st, [])
  | some s =>
    match accessMemberId env st with
    | (Except.error e, st1, tr) => (Except.error e, st1, tr)
    | (Except.ok mid, st1, tr) =>
      (Except.ok
        { event_id := s.event_id
          event_chain_id := s.event_chain_id
          member_id := mid }, st1, tr)

/-- The session headers relevant to the claims: the two static identity
headers and the dynamic bearer token (`none` = not yet attached). -/
structure Headers where
  appId : Option String
  appKey : Option String
  authToken : Option String
deriving DecidableEq, Repr

/-- A constructed Booker: its session header state and its cache state. -/
structure Booker where
  headers : Headers
  state : BState
deriving DecidableEq, Repr

/-- Booker.__init__ (src/src/booker.py): update the session headers with the
two static identity headers App-Id and App-Key (values imported from the
config module), then evaluate `self._sso_token` — which runs the whole
login and auth-exchange chain — and attach it as the Auth-Token header.
Any exception of the chain propagates and no Booker value is produced. -/
def construct (appId appKey : String) (env : Env) :
    Except PyError Booker × List NetAction :=
  match accessSsoToken env BState.empty with
  | (Except.error e, _st, tr) => (Except.error e, tr)
  | (Except.ok tok, st, tr) =>
    (Except.ok
      { headers := { appId := some appId, appKey := some appKey, authToken := some tok }
        state := st }, tr)

/-- Booker._get_slots_for, network part abstracted: the provider's raw events
list mapped through Booker._transform in order (a list comprehension: the
first transform exception aborts the whole call). -/
def get_slots_for (rawEvents : List RawSlot) : Except PyError (List NormalizedSlot) :=
  rawEvents.mapM transform

/-- The message of the NoSlotsAvailable exception raised by Booker.book:
`f"No slots found for start_time={start}, lane={lane}, and
target_date={target_date.date()}"`.  Python renders the Lane enum value as
`Lane.<name>`; the date is rendered by `dateRepr`. -/
def noSlotsMsg (start : Int) (lane : Lane) (dateRepr : String) : String :=
  "No slots found for start_time=" ++ toString start ++ ", lane=Lane." ++ lane.name ++
    ", and target_date=" ++ dateRepr

/-- Outcome of one Booker.book call. -/
inductive BookResult where
  | booked (req : BookingRequest)
  | noSlots (msg : String)
  | pyError (e : PyError)
deriving DecidableEq, Repr

/-- Booker.book.  Python's datetime library is external; a datetime is
abstracted to its day ordinal (an integer), `timedelta(days=d)` to integer
addition, and `target_date.date()` rendering to `toString` of the ordinal.
The call GETs the day's events, normalizes them, finds the first slot
matching the requested lane and start time (reading the cached member id),
and checks out the match with two POSTs; a StopIteration from the exhausted
generator is converted to NoSlotsAvailable naming the filters and the target
date.  Every request is tagged with the session headers it carries. -/
def bookRun (env : Env) (b : Booker) (rawEvents : List RawSlot) (today : Int)
    (start : Int) (lane : Lane) (days_ahead : Int) :
    BookResult × List (NetAction × Headers) :=
  let target_date := today + days_ahead
  let hdrs := b.headers
  let tr0 := [(NetAction.getEvents, hdrs)]
  match get_slots_for rawEvents with
  | Except.error e => (BookResult.pyError e, tr0)
  | Except.ok slots =>
    match get_first_matching env b.state slots lane start with
    | (Except.error e, _st, tr) =>
      if e = PyError.stopIteration then
        (BookResult.noSlots (noSlotsMsg start lane (toString target_date)),
          tr0 ++ tr.map (fun a => (a, hdrs)))
      else (BookResult.pyError e, tr0 ++ tr.map (fun a => (a, hdrs)))
    | (Except.ok req, _st, tr) =>
      (BookResult.booked req,
        tr0 ++ tr.map (fun a => (a, hdrs)) ++
          [(NetAction.postBasketAdd, hdrs), (NetAction.postCheckout, hdrs)])

/-- CLI arguments main() parses (src/main.py): the positional start time and
the optional lane, days-ahead and env-file path.  The parser defines no
bypass flag of any kind. -/
structure Args where
  start_time : Int
  lane : Lane
  days_ahead : Int
  env_path : String
deriving DecidableEq, Repr

/-- Outcome of one main() run. -/
inductive MainOutcome where
  | skipped
  | booked (req : BookingRequest)
  | noSlots (msg : String)
  | pyError (e : PyError)
deriving DecidableEq, Repr

/-- main() from src/main.py.  `bookingOpenTime` models the BOOKING_OPEN_TIME
constant imported from the config module (not under src; the spec describes
it as the configured booking-open hour) and `appId`/`appKey` model APP_ID and
APP_KEY from the same module.  When the current London hour differs from the
booking-open hour, main returns at once: no Booker is constructed and no
network action occurs.  Otherwise it constructs a Booker (login + auth
exchange) and books with the parsed arguments. -/
def mainRun (bookingOpenTime : Nat) (appId appKey : String) (hour : Nat)
    (args : Args) (env : Env) (rawEvents : List RawSlot) (today : Int) :
    MainOutcome × List (NetAction × Headers) :=
  if hour ≠ bookingOpenTime then (MainOutcome.skipped, [])
  else
    match construct appId appKey env with
    | (Except.error e, tr) =>
      (MainOutcome.pyError e, tr.map (fun a => (a, { appId := some appId, appKey := some appKey, authToken := none })))
    | (Except.ok b, tr) =>
      let ctr := tr.map (fun a => (a, { appId := some appId, appKey := some appKey, authToken := none }))
      match bookRun env b rawEvents today args.start_time args.lane args.days_ahead with
      | (BookResult.booked req, btr) => (MainOutcome.booked req, ctr ++ btr)
      | (BookResult.noSlots m, btr) => (MainOutcome.noSlots m, ctr ++ btr)
      | (BookResult.pyError e, btr) => (MainOutcome.pyError e, ctr ++ btr)

/-! ## Helper lemmas -/

set_option maxRecDepth 8000 in
/-- The digit-concatenation start time equals `hour * 100 + minute` on the
whole clock range. -/
theorem startTimeOf_spec : ∀ h < 24, ∀ m < 60, startTimeOf h m = h * 100 + m := by
  decide

theorem parseClockField_lt {s : String} {b n : Nat}
    (h : parseClockField? s b = some n) : n < b := by
  unfold parseClockField? at h
  split at h
  · cases hp : pyInt? s with
    | none => rw [hp] at h; exact absurd h (by simp)
    | some k =>
      rw [hp] at h
      change (if k < b then some k else none) = some n at h
      by_cases hkb : k < b
      · rw [if_pos hkb] at h
        cases h
        exact hkb
      · rw [if_neg hkb] at h
        exact absurd h (by simp)
  · exact absurd h (by simp)

theorem parseDatetime_bounds {s : String} {h m : Nat}
    (hp : parseDatetime? s = some (h, m)) : h < 24 ∧ m < 60 := by
  unfold parseDatetime? at hp
  split at hp
  · split at hp
    · split at hp
      · split at hp
        · exact absurd hp (by simp)
        · split at hp
          · cases hp
            exact ⟨parseClockField_lt (by assumption), parseClockField_lt (by assumption)⟩
          · exact absurd hp (by simp)
      · exact absurd hp (by simp)
    · exact absurd hp (by simp)
  · exact absurd hp (by simp)

/-! ## C1 -/

/-- C1: for every raw slot whose datetime parses, _transform yields a
normalized slot whose lane is SLOW/MEDIUM/FAST exactly when the uppercased
first word of the description is that member name, and UNKNOWN when it is
none of the three; and the lane lookup Lane.get never fails: a KeyError from
the enum indexing is caught and mapped to UNKNOWN, a successful indexing is
returned unchanged. -/
theorem C1_lane_normalization (slot : RawSlot) (h m : Nat) (key : String)
    (hp : parseDatetime? slot.datetime = some (h, m)) :
    (∃ ns, transform slot = Except.ok ns ∧
      (pyUpper (firstWord slot.description) = "SLOW" → ns.lane = Lane.SLOW) ∧
      (pyUpper (firstWord slot.description) = "MEDIUM" → ns.lane = Lane.MEDIUM) ∧
      (pyUpper (firstWord slot.description) = "FAST" → ns.lane = Lane.FAST) ∧
      (pyUpper (firstWord slot.description) ∉ (["SLOW", "MEDIUM", "FAST"] : List String) →
        ns.lane = Lane.UNKNOWN)) ∧
    (laneIndex key = Except.error PyError.keyError → Lane.get key = Lane.UNKNOWN) ∧
    (∀ l, laneIndex key = Except.ok l → Lane.get key = l) := by
  have ht : transform slot = Except.ok
      { start_time := (startTimeOf h m : Int)
        lane := Lane.get (pyUpper (firstWord slot.description))
        event_id := slot.id
        event_chain_id := slot.event_chain_id } := by
    simp [transform, hp]
  refine ⟨⟨_, ht, ?_, ?_, ?_, ?_⟩, ?_, ?_⟩
  · intro hw; simp [hw, Lane.get, laneIndex, Lane.ofKey?]
  · intro hw; simp [hw, Lane.get, laneIndex, Lane.ofKey?]
  · intro hw; simp [hw, Lane.get, laneIndex, Lane.ofKey?]
  · intro hw
    simp only [List.mem_cons, List.not_mem_nil, or_false, not_or] at hw
    obtain ⟨h1, h2, h3⟩ := hw
    by_cases hu : pyUpper (firstWord slot.description) = "UNKNOWN"
    · simp [hu, Lane.get, laneIndex, Lane.ofKey?]
    · simp [Lane.get, laneIndex, Lane.ofKey?, hu, h1, h2, h3]
  · intro hk; simp [Lane.get, hk]
  · intro l hl; simp [Lane.get, hl]

/-- Sample slot for C1: description first word `Fast`, timestamp 08:05. -/
def c1Slot : RawSlot :=
  { datetime := "2021-01-01T08:05:00+0000"
    description := "Fast lane swimming"
    id := 11
    event_chain_id := 21 }

/-- Witness for C1 at a concrete slot and a concrete unrecognized key. -/
theorem C1_lane_normalization_witness :
    parseDatetime? c1Slot.datetime = some (8, 5) ∧
    ((∃ ns, transform c1Slot = Except.ok ns ∧
      (pyUpper (firstWord c1Slot.description) = "SLOW" → ns.lane = Lane.SLOW) ∧
      (pyUpper (firstWord c1Slot.description) = "MEDIUM" → ns.lane = Lane.MEDIUM) ∧
      (pyUpper (firstWord c1Slot.description) = "FAST" → ns.lane = Lane.FAST) ∧
      (pyUpper (firstWord c1Slot.description) ∉ (["SLOW", "MEDIUM", "FAST"] : List String) →
        ns.lane = Lane.UNKNOWN)) ∧
    (laneIndex "HYDRO" = Except.error PyError.keyError → Lane.get "HYDRO" = Lane.UNKNOWN) ∧
    (∀ l, laneIndex "HYDRO" = Except.ok l → Lane.get "HYDRO" = l)) :=
  ⟨by decide, C1_lane_normalization c1Slot 8 5 "HYDRO" (by decide)⟩

/-! ## C2 -/

/-- C2: for every raw slot whose datetime parses with hour h and minute m,
the normalized start_time equals h * 100 + m — i.e. the code's concatenation
of the hour digits with the zero-padded minute reads back as that value. -/
theorem C2_start_time_concat (slot : RawSlot) (h m : Nat)
    (hp : parseDatetime? slot.datetime = some (h, m)) :
    ∃ ns, transform slot = Except.ok ns ∧
      ns.start_time = Int.ofNat (h * 100 + m) ∧
      startTimeOf h m = h * 100 + m := by
  obtain ⟨hh, hm⟩ := parseDatetime_bounds hp
  have hst := startTimeOf_spec h hh m hm
  have ht : transform slot = Except.ok
      { start_time := (startTimeOf h m : Int)
        lane := Lane.get (pyUpper (firstWord slot.description))
        event_id := slot.id
        event_chain_id := slot.event_chain_id } := by
    simp [transform, hp]
  exact ⟨_, ht, by simp [hst, Int.ofNat_eq_coe], hst⟩

/-- Sample slot for C2: timestamp 19:00 → start_time 1900. -/
def c2Slot : RawSlot :=
  { datetime := "2021-01-02T19:00:00+0100"
    description := "Medium lane"
    id := 12
    event_chain_id := 22 }

/-- Witness for C2 at a concrete 19:00 slot. -/
theorem C2_start_time_concat_witness :
    parseDatetime? c2Slot.datetime = some (19, 0) ∧
    (∃ ns, transform c2Slot = Except.ok ns ∧
      ns.start_time = Int.ofNat (19 * 100 + 0) ∧
      startTimeOf 19 0 = 19 * 100 + 0) :=
  ⟨by decide, C2_start_time_concat c2Slot 19 0 (by decide)⟩

/-! ## C3 -/

theorem find_first_decomp {α : Type} (p : α → Bool) (l : List α)
    (hex : ∃ x ∈ l, p x = true) :
    ∃ pfx x sfx, l = pfx ++ x :: sfx ∧ (∀ t ∈ pfx, p t = false) ∧
      p x = true ∧ l.find? p = some x := by
  induction l with
  | nil => simp at hex
  | cons a rest ih =>
    by_cases ha : p a = true
    · exact ⟨[], a, rest, rfl, by simp, ha, by simp [List.find?_cons, ha]⟩
    · have hfa : p a = false := by simpa using ha
      have hex2 : ∃ x ∈ rest, p x = true := by
        obtain ⟨x, hx, hpx⟩ := hex
        rcases List.mem_cons.mp hx with rfl | hx2
        · exact absurd hpx ha
        · exact ⟨x, hx2, hpx⟩
      obtain ⟨pfx, x, sfx, heq, hpfx, hpx, hfind⟩ := ih hex2
      refine ⟨a :: pfx, x, sfx, by rw [heq]; rfl, ?_, hpx, ?_⟩
      · intro t ht
        rcases List.mem_cons.mp ht with rfl | ht2
        · exact hfa
        · exact hpfx t ht2
      · simp [List.find?_cons, hfa, hfind]

/-- C3: when some slot in the list matches both predicates and the member id
is cached, _get_first_matching returns a BookingRequest built from the first
matching element in list order (the list splits as an all-non-matching
prefix, the matched slot, and a suffix), with the cached member identifier
attached, without further network actions; no reordering occurs. -/
theorem C3_first_matching (env : Env) (st : BState)
    (slots : List NormalizedSlot) (lane : Lane) (start mid : Int)
    (hmid : st.member_id = some mid)
    (hex : ∃ s ∈ slots, matchesFilter lane start s = true) :
    ∃ pfx s sfx, slots = pfx ++ s :: sfx ∧
      (∀ t ∈ pfx, matchesFilter lane start t = false) ∧
      s.lane = lane ∧ s.start_time = start ∧
      get_first_matching env st slots lane start =
        (Except.ok
          { event_id := s.event_id
            event_chain_id := s.event_chain_id
            member_id := mid }, st, []) := by
  obtain ⟨pfx, s, sfx, heq, hpfx, hps, hfind⟩ :=
    find_first_decomp (matchesFilter lane start) slots hex
  have hls : s.lane = lane ∧ s.start_time = start := by
    have hb := hps
    simp only [matchesFilter, Bool.and_eq_true, beq_iff_eq] at hb
    exact hb
  refine ⟨pfx, s, sfx, heq, hpfx, hls.1, hls.2, ?_⟩
  simp [get_first_matching, hfind, accessMemberId, hmid]

/-- Sample normalized slots for C3 (the spec scenario list). -/
def c3Slots : List NormalizedSlot :=
  [ { start_time := 800, lane := Lane.SLOW, event_id := 1, event_chain_id := 2 }
  , { start_time := 900, lane := Lane.MEDIUM, event_id := 3, event_chain_id := 4 } ]

/-- Cache state with member id 77 for the C3 witness. -/
def c3St : BState := { member_id := some 77 }

/-- Inert environment for the C3 witness. -/
def c3Env : Env :=
  { loginScript := none
    confirmFormAction := none
    confirmCodeValue := none
    ssoAttrs := none
    authInfo := { auth_token := none, embedded := none } }

/-- Witness for C3: requesting (900, MEDIUM) on the scenario list matches the
second slot. -/
theorem C3_first_matching_witness :
    c3St.member_id = some 77 ∧
    (∃ s ∈ c3Slots, matchesFilter Lane.MEDIUM 900 s = true) ∧
    (∃ pfx s sfx, c3Slots = pfx ++ s :: sfx ∧
      (∀ t ∈ pfx, matchesFilter Lane.MEDIUM 900 t = false) ∧
      s.lane = Lane.MEDIUM ∧ s.start_time = 900 ∧
      get_first_matching c3Env c3St c3Slots Lane.MEDIUM 900 =
        (Except.ok
          { event_id := s.event_id
            event_chain_id := s.event_chain_id
            member_id := 77 }, c3St, [])) :=
  ⟨rfl, by decide,
    C3_first_matching c3Env c3St c3Slots Lane.MEDIUM 900 77 rfl (by decide)⟩

/-! ## C4 -/

/-- C4: given that the queried events normalize successfully and the cached
member id resolves, book ends in NoSlotsAvailable — whose message is exactly
the f-string naming the requested start time, the lane, and the target date
today + days_ahead — if and only if no normalized slot matches both filters;
and when a match exists, book returns a booked result and the checkout POST
is among the issued requests. -/
theorem C4_book_no_slots (env : Env) (b : Booker) (rawEvents : List RawSlot)
    (today start : Int) (lane : Lane) (days_ahead : Int)
    (slots : List NormalizedSlot) (mid : Int) (st : BState) (tr : List NetAction)
    (hs : get_slots_for rawEvents = Except.ok slots)
    (hm : accessMemberId env b.state = (Except.ok mid, st, tr)) :
    ((bookRun env b rawEvents today start lane days_ahead).1 =
        BookResult.noSlots (noSlotsMsg start lane (toString (today + days_ahead))) ↔
      ∀ s ∈ slots, matchesFilter lane start s = false) ∧
    ((∃ s ∈ slots, matchesFilter lane start s = true) →
      (∃ req, (bookRun env b rawEvents today start lane days_ahead).1 =
        BookResult.booked req) ∧
      NetAction.postCheckout ∈
        ((bookRun env b rawEvents today start lane days_ahead).2.map Prod.fst)) := by
  cases hfind : slots.find? (matchesFilter lane start) with
  | none =>
    have hgfm : get_first_matching env b.state slots lane start =
        (Except.error PyError.stopIteration, b.state, []) := by
      simp [get_first_matching, hfind]
    have hres : bookRun env b rawEvents today start lane days_ahead =
        (BookResult.noSlots (noSlotsMsg start lane (toString (today + days_ahead))),
          [(NetAction.getEvents, b.headers)]) := by
      simp [bookRun, hs, hgfm]
    constructor
    · constructor
      · intro _ s hsmem
        have hns := List.find?_eq_none.mp hfind s hsmem
        simpa using hns
      · intro _
        rw [hres]
    · rintro ⟨s, hsm, hmt⟩
      exact absurd hmt (List.find?_eq_none.mp hfind s hsm)
  | some s =>
    have hgfm : get_first_matching env b.state slots lane start =
        (Except.ok
          { event_id := s.event_id
            event_chain_id := s.event_chain_id
            member_id := mid }, st, tr) := by
      simp [get_first_matching, hfind, hm]
    have hres : bookRun env b rawEvents today start lane days_ahead =
        (BookResult.booked
            { event_id := s.event_id, event_chain_id := s.event_chain_id, member_id := mid },
          [(NetAction.getEvents, b.headers)] ++ tr.map (fun a => (a, b.headers)) ++
            [(NetAction.postBasketAdd, b.headers), (NetAction.postCheckout, b.headers)]) := by
      simp [bookRun, hs, hgfm]
    constructor
    · constructor
      · intro hcontra
        rw [hres] at hcontra
        simp at hcontra
      · intro hall
        have hmem := List.mem_of_find?_eq_some hfind
        have hps := List.find?_some hfind
        rw [hall s hmem] at hps
        cases hps
    · intro _
      rw [hres]
      exact ⟨⟨_, rfl⟩, by simp⟩

/-- Auth info used by the C4 witness: token present, one member with id 77. -/
def c4AuthInfo : AuthInfoJson :=
  { auth_token := some "tok"
    embedded := some { members := some [{ id := some 77 }] } }

/-- Environment used by the C4 witness. -/
def c4Env : Env :=
  { loginScript := some "var SETTINGS = 1;"
    confirmFormAction := some "act"
    confirmCodeValue := some "code"
    ssoAttrs := some ("sso", "cid")
    authInfo := c4AuthInfo }

/-- A constructed Booker for the C4 witness (caches filled by construction,
member id not yet read). -/
def c4Booker : Booker :=
  { headers := { appId := some "a", appKey := some "k", authToken := some "tok" }
    state :=
      { login_config := some "1"
        auth_info := some c4AuthInfo
        sso_token := some "tok"
        member_id := none } }

/-- Cache state after the C4 witness reads the member id. -/
def c4StAfter : BState :=
  { login_config := some "1"
    auth_info := some c4AuthInfo
    sso_token := some "tok"
    member_id := some 77 }

/-- Raw events of the spec's scenario: an 08:00 SLOW slot and a 09:00 MEDIUM
slot. -/
def c4Raw : List RawSlot :=
  [ { datetime := "2021-01-01T08:00:00+0000", description := "Slow lane", id := 1, event_chain_id := 2 }
  , { datetime := "2021-01-01T09:00:00+0000", description := "Medium lane", id := 3, event_chain_id := 4 } ]

/-- The scenario events after normalization. -/
def c4Norm : List NormalizedSlot :=
  [ { start_time := 800, lane := Lane.SLOW, event_id := 1, event_chain_id := 2 }
  , { start_time := 900, lane := Lane.MEDIUM, event_id := 3, event_chain_id := 4 } ]

/-- Witness for C4 on the scenario: request (900, MEDIUM), today ordinal 100,
8 days ahead. -/
theorem C4_book_no_slots_witness :
    get_slots_for c4Raw = Except.ok c4Norm ∧
    accessMemberId c4Env c4Booker.state = (Except.ok 77, c4StAfter, []) ∧
    (((bookRun c4Env c4Booker c4Raw 100 900 Lane.MEDIUM 8).1 =
        BookResult.noSlots (noSlotsMsg 900 Lane.MEDIUM (toString (100 + 8 : Int))) ↔
      ∀ s ∈ c4Norm, matchesFilter Lane.MEDIUM 900 s = false) ∧
    ((∃ s ∈ c4Norm, matchesFilter Lane.MEDIUM 900 s = true) →
      (∃ req, (bookRun c4Env c4Booker c4Raw 100 900 Lane.MEDIUM 8).1 =
        BookResult.booked req) ∧
      NetAction.postCheckout ∈
        ((bookRun c4Env c4Booker c4Raw 100 900 Lane.MEDIUM 8).2.map Prod.fst))) :=
  ⟨by decide, by decide,
    C4_book_no_slots c4Env c4Booker c4Raw 100 900 Lane.MEDIUM 8 c4Norm 77 c4StAfter []
      (by decide) (by decide)⟩

/-! ## C5 -/

/-- Whether a PyError is the LoginError class raised in booker.py. -/
def isLoginError : PyError → Bool
  | PyError.loginError _ => true
  | _ => false

/-- Trivial auth info for the C5 environments (never reached). -/
def c5AuthInfo : AuthInfoJson := { auth_token := none, embedded := none }

/-- C5 counterexample environment: the SETTINGS scrape succeeds but the
confirmation page has no `form#auto`. -/
def c5BadEnv : Env :=
  { loginScript := some "var SETTINGS = 1;"
    confirmFormAction := none
    confirmCodeValue := some "code"
    ssoAttrs := some ("sso", "cid")
    authInfo := c5AuthInfo }

/-- C5 counterexample: a scrape miss in a subsequent login step (the missing
confirmation form) aborts the login with a generic AttributeError, not with
LoginError as the claim states. -/
theorem C5_counterexample :
    (loginSteps c5BadEnv BState.empty).1 = Except.error PyError.attributeError ∧
    isLoginError PyError.attributeError = false :=
  ⟨by decide, rfl⟩

/-- C5 amended: when the login-config page carries the script tag but no
`var SETTINGS = ...;` pattern, the flow raises LoginError and the only
request issued is the login-page GET — in particular no credential POST
occurs.  Every other scrape miss (missing script tag, missing confirmation
form, missing code input, missing SSO attribute div) also aborts the whole
login with no partial-success result, but with a generic AttributeError
rather than LoginError. -/
theorem C5_amended_scrape_errors (env : Env) (s0 : String) :
    (env.loginScript = some s0 → settingsSearch s0 = none →
      (loginSteps env BState.empty).1 =
        Except.error (PyError.loginError "Unable to scrape login config!") ∧
      NetAction.postCredentials ∉ (loginSteps env BState.empty).2.2) ∧
    (env.loginScript = none →
      (loginSteps env BState.empty).1 = Except.error PyError.attributeError) ∧
    (env.confirmFormAction = none → ∀ g, loginConfigScrape env = Except.ok g →
      (loginSteps env BState.empty).1 = Except.error PyError.attributeError) ∧
    (env.confirmCodeValue = none → ∀ g, loginConfigScrape env = Except.ok g →
      (loginSteps env BState.empty).1 = Except.error PyError.attributeError) ∧
    (env.ssoAttrs = none → ∀ g, loginConfigScrape env = Except.ok g →
      (loginSteps env BState.empty).1 = Except.error PyError.attributeError) := by
  refine ⟨?_, ?_, ?_, ?_, ?_⟩
  · intro hls hss
    have hcfg : loginConfigScrape env =
        Except.error (PyError.loginError "Unable to scrape login config!") := by
      simp [loginConfigScrape, hls, hss]
    constructor
    · simp [loginSteps, accessLoginConfig, BState.empty, hcfg]
    · simp [loginSteps, accessLoginConfig, BState.empty, hcfg]
  · intro hls
    simp [loginSteps, accessLoginConfig, BState.empty, loginConfigScrape, hls]
  · intro hcf g hcfg
    simp [loginSteps, accessLoginConfig, BState.empty, hcfg, hcf]
  · intro hcv g hcfg
    cases hcf : env.confirmFormAction with
    | none => simp [loginSteps, accessLoginConfig, BState.empty, hcfg, hcf]
    | some a => simp [loginSteps, accessLoginConfig, BState.empty, hcfg, hcf, hcv]
  · intro hsso g hcfg
    cases hcf : env.confirmFormAction with
    | none => simp [loginSteps, accessLoginConfig, BState.empty, hcfg, hcf]
    | some a =>
      cases hcv : env.confirmCodeValue with
      | none => simp [loginSteps, accessLoginConfig, BState.empty, hcfg, hcf, hcv]
      | some c => simp [loginSteps, accessLoginConfig, BState.empty, hcfg, hcf, hcv, hsso]

/-- C5 environment: script tag present, SETTINGS pattern absent. -/
def c5EnvA : Env :=
  { loginScript := some "a page with no pattern"
    confirmFormAction := some "act"
    confirmCodeValue := some "code"
    ssoAttrs := some ("sso", "cid")
    authInfo := c5AuthInfo }

/-- C5 environment: script tag absent. -/
def c5EnvB : Env :=
  { loginScript := none
    confirmFormAction := some "act"
    confirmCodeValue := some "code"
    ssoAttrs := some ("sso", "cid")
    authInfo := c5AuthInfo }

/-- C5 environment: config ok, confirmation form absent. -/
def c5EnvC : Env :=
  { loginScript := some "var SETTINGS = 1;"
    confirmFormAction := none
    confirmCodeValue := some "code"
    ssoAttrs := some ("sso", "cid")
    authInfo := c5AuthInfo }

/-- C5 environment: config ok, code input absent. -/
def c5EnvD : Env :=
  { loginScript := some "var SETTINGS = 1;"
    confirmFormAction := some "act"
    confirmCodeValue := none
    ssoAttrs := some ("sso", "cid")
    authInfo := c5AuthInfo }

/-- C5 environment: config ok, SSO attribute div absent. -/
def c5EnvE : Env :=
  { loginScript := some "var SETTINGS = 1;"
    confirmFormAction := some "act"
    confirmCodeValue := some "code"
    ssoAttrs := none
    authInfo := c5AuthInfo }

/-- Witness for C5 amended: each scrape-miss scenario at a concrete
environment. -/
theorem C5_amended_scrape_errors_witness :
    ((loginSteps c5EnvA BState.empty).1 =
        Except.error (PyError.loginError "Unable to scrape login config!") ∧
      NetAction.postCredentials ∉ (loginSteps c5EnvA BState.empty).2.2) ∧
    (loginSteps c5EnvB BState.empty).1 = Except.error PyError.attributeError ∧
    (loginSteps c5EnvC BState.empty).1 = Except.error PyError.attributeError ∧
    (loginSteps c5EnvD BState.empty).1 = Except.error PyError.attributeError ∧
    (loginSteps c5EnvE BState.empty).1 = Except.error PyError.attributeError :=
  ⟨(C5_amended_scrape_errors c5EnvA "a page with no pattern").1 rfl (by decide),
   (C5_amended_scrape_errors c5EnvB "x").2.1 rfl,
   (C5_amended_scrape_errors c5EnvC "x").2.2.1 rfl "1" (by decide),
   (C5_amended_scrape_errors c5EnvD "x").2.2.2.1 rfl "1" (by decide),
   (C5_amended_scrape_errors c5EnvE "x").2.2.2.2 rfl "1" (by decide)⟩

/-! ## C6 -/

theorem accessLoginConfig_cached {env : Env} {st : BState} {v : String}
    (h : st.login_config = some v) :
    accessLoginConfig env st = (Except.ok v, st, []) := by
  simp [accessLoginConfig, h]

theorem accessAuthInfo_cached {env : Env} {st : BState} {v : AuthInfoJson}
    (h : st.auth_info = some v) :
    accessAuthInfo env st = (Except.ok v, st, []) := by
  simp [accessAuthInfo, h]

theorem accessSsoToken_cached {env : Env} {st : BState} {v : String}
    (h : st.sso_token = some v) :
    accessSsoToken env st = (Except.ok v, st, []) := by
  simp [accessSsoToken, h]

theorem accessMemberId_cached {env : Env} {st : BState} {v : Int}
    (h : st.member_id = some v) :
    accessMemberId env st = (Except.ok v, st, []) := by
  simp [accessMemberId, h]

theorem accessLoginConfig_ok_state {env : Env} {st st1 : BState} {v : String}
    {tr : List NetAction}
    (h : accessLoginConfig env st = (Except.ok v, st1, tr)) :
    st1.login_config = some v := by
  cases hw : st.login_config with
  | some w =>
    simp only [accessLoginConfig, hw] at h
    simp only [Prod.mk.injEq, Except.ok.injEq] at h
    obtain ⟨rfl, rfl, rfl⟩ := h
    exact hw
  | none =>
    cases hcs : loginConfigScrape env with
    | error e =>
      simp only [accessLoginConfig, hw, hcs] at h
      simp at h
    | ok w =>
      simp only [accessLoginConfig, hw, hcs] at h
      simp only [Prod.mk.injEq, Except.ok.injEq] at h
      obtain ⟨rfl, rfl, rfl⟩ := h
      rfl

theorem accessAuthInfo_ok_state {env : Env} {st st1 : BState} {v : AuthInfoJson}
    {tr : List NetAction}
    (h : accessAuthInfo env st = (Except.ok v, st1, tr)) :
    st1.auth_info = some v := by
  cases hw : st.auth_info with
  | some w =>
    simp only [accessAuthInfo, hw] at h
    simp only [Prod.mk.injEq, Except.ok.injEq] at h
    obtain ⟨rfl, rfl, rfl⟩ := h
    exact hw
  | none =>
    simp only [accessAuthInfo, hw] at h
    rcases hls : loginSteps env st with ⟨res, st2, tr2⟩
    rw [hls] at h
    cases res with
    | error e => simp at h
    | ok tc =>
      simp only [Prod.mk.injEq, Except.ok.injEq] at h
      obtain ⟨rfl, rfl, rfl⟩ := h
      rfl

theorem accessSsoToken_ok_state {env : Env} {st st1 : BState} {v : String}
    {tr : List NetAction}
    (h : accessSsoToken env st = (Except.ok v, st1, tr)) :
    st1.sso_token = some v := by
  cases hw : st.sso_token with
  | some w =>
    simp only [accessSsoToken, hw] at h
    simp only [Prod.mk.injEq, Except.ok.injEq] at h
    obtain ⟨rfl, rfl, rfl⟩ := h
    exact hw
  | none =>
    simp only [accessSsoToken, hw] at h
    rcases hai : accessAuthInfo env st with ⟨res, st2, tr2⟩
    rw [hai] at h
    cases res with
    | error e => simp at h
    | ok a =>
      cases htl : ssoTokenLookup a with
      | error e => simp [htl] at h
      | ok tok =>
        simp only [htl, Prod.mk.injEq, Except.ok.injEq] at h
        obtain ⟨rfl, rfl, rfl⟩ := h
        rfl

theorem accessMemberId_ok_state {env : Env} {st st1 : BState} {v : Int}
    {tr : List NetAction}
    (h : accessMemberId env st = (Except.ok v, st1, tr)) :
    st1.member_id = some v := by
  cases hw : st.member_id with
  | some w =>
    simp only [accessMemberId, hw] at h
    simp only [Prod.mk.injEq, Except.ok.injEq] at h
    obtain ⟨rfl, rfl, rfl⟩ := h
    exact hw
  | none =>
    simp only [accessMemberId, hw] at h
    rcases hai : accessAuthInfo env st with ⟨res, st2, tr2⟩
    rw [hai] at h
    cases res with
    | error e => simp at h
    | ok a =>
      cases hml : memberIdLookup a with
      | error e => simp [hml] at h
      | ok i =>
        simp only [hml, Prod.mk.injEq, Except.ok.injEq] at h
        obtain ⟨rfl, rfl, rfl⟩ := h
        rfl

/-- C6: each cached accessor is lazy and memoized: a first access of the
login config performs the login-page GET, and after any successful access of
any of the four accessors (login config, auth info, SSO token, member id), a
repeated access of the same accessor returns the stored value with the cache
state unchanged and an empty network-action list. -/
theorem C6_cached_once (env : Env) (st : BState) :
    (st.login_config = none →
      (accessLoginConfig env st).2.2 = [NetAction.getLoginPage]) ∧
    (∀ v st1 tr, accessLoginConfig env st = (Except.ok v, st1, tr) →
      accessLoginConfig env st1 = (Except.ok v, st1, [])) ∧
    (∀ v st1 tr, accessAuthInfo env st = (Except.ok v, st1, tr) →
      accessAuthInfo env st1 = (Except.ok v, st1, [])) ∧
    (∀ v st1 tr, accessSsoToken env st = (Except.ok v, st1, tr) →
      accessSsoToken env st1 = (Except.ok v, st1, [])) ∧
    (∀ v st1 tr, accessMemberId env st = (Except.ok v, st1, tr) →
      accessMemberId env st1 = (Except.ok v, st1, [])) := by
  refine ⟨?_, ?_, ?_, ?_, ?_⟩
  · intro hw
    cases hcs : loginConfigScrape env with
    | error e => simp [accessLoginConfig, hw, hcs]
    | ok w => simp [accessLoginConfig, hw, hcs]
  · intro v st1 tr h
    exact accessLoginConfig_cached (accessLoginConfig_ok_state h)
  · intro v st1 tr h
    exact accessAuthInfo_cached (accessAuthInfo_ok_state h)
  · intro v st1 tr h
    exact accessSsoToken_cached (accessSsoToken_ok_state h)
  · intro v st1 tr h
    exact accessMemberId_cached (accessMemberId_ok_state h)

/-- Auth info for the C6 witness. -/
def c6AuthInfo : AuthInfoJson :=
  { auth_token := some "tok"
    embedded := some { members := some [{ id := some 5 }] } }

/-- Fully-working environment for the C6 witness. -/
def c6Env : Env :=
  { loginScript := some "var SETTINGS = 1;"
    confirmFormAction := some "act"
    confirmCodeValue := some "code"
    ssoAttrs := some ("sso", "cid")
    authInfo := c6AuthInfo }

/-- Cache state after a first login-config access. -/
def c6StLC : BState := { login_config := some "1" }

/-- Cache state after a first auth-info access. -/
def c6StAI : BState := { login_config := some "1", auth_info := some c6AuthInfo }

/-- Cache state after a first SSO-token access. -/
def c6StST : BState :=
  { login_config := some "1", auth_info := some c6AuthInfo, sso_token := some "tok" }

/-- Cache state after a first member-id access. -/
def c6StMI : BState :=
  { login_config := some "1", auth_info := some c6AuthInfo, member_id := some 5 }

/-- Witness for C6: on a concrete working environment, the first access
performs the network calls and a repeated access of each accessor is a pure
cache hit. -/
theorem C6_cached_once_witness :
    (accessLoginConfig c6Env BState.empty).2.2 = [NetAction.getLoginPage] ∧
    accessLoginConfig c6Env c6StLC = (Except.ok "1", c6StLC, []) ∧
    accessAuthInfo c6Env c6StAI = (Except.ok c6AuthInfo, c6StAI, []) ∧
    accessSsoToken c6Env c6StST = (Except.ok "tok", c6StST, []) ∧
    accessMemberId c6Env c6StMI = (Except.ok 5, c6StMI, []) :=
  ⟨(C6_cached_once c6Env BState.empty).1 rfl,
   (C6_cached_once c6Env BState.empty).2.1 "1" c6StLC [NetAction.getLoginPage] (by decide),
   (C6_cached_once c6Env BState.empty).2.2.1 c6AuthInfo c6StAI
     [NetAction.getLoginPage, NetAction.postCredentials, NetAction.getConfirmed,
       NetAction.postCode, NetAction.postSsoExchange] (by decide),
   (C6_cached_once c6Env BState.empty).2.2.2.1 "tok" c6StST
     [NetAction.getLoginPage, NetAction.postCredentials, NetAction.getConfirmed,
       NetAction.postCode, NetAction.postSsoExchange] (by decide),
   (C6_cached_once c6Env BState.empty).2.2.2.2 5 c6StMI
     [NetAction.getLoginPage, NetAction.postCredentials, NetAction.getConfirmed,
       NetAction.postCode, NetAction.postSsoExchange] (by decide)⟩

/-! ## C7 -/

/-- Slot with an unrecognized lane word, separating the two versions. -/
def c7Slot : RawSlot :=
  { datetime := "2021-01-01T08:00:00+0000"
    description := "Hydro pool"
    id := 9
    event_chain_id := 10 }

/-- C7 counterexample: on a slot whose description starts with an
unrecognized word, the src/main.py transform raises KeyError while the
src/src/booker.py transform succeeds with lane UNKNOWN — the two historical
versions are not behaviorally equivalent. -/
theorem C7_counterexample :
    transformMain c7Slot = Except.error PyError.keyError ∧
    transform c7Slot =
      Except.ok { start_time := 800, lane := Lane.UNKNOWN, event_id := 9, event_chain_id := 10 } ∧
    transformMain c7Slot ≠ transform c7Slot :=
  ⟨by decide, by decide, by decide⟩

theorem laneGet_unknown_of_mainNone {w : String}
    (h : laneOfKeyMain? w = none) : Lane.get w = Lane.UNKNOWN := by
  unfold laneOfKeyMain? at h
  split_ifs at h with h1 h2 h3
  by_cases hu : w = "UNKNOWN"
  · simp [Lane.get, laneIndex, Lane.ofKey?, hu]
  · simp [Lane.get, laneIndex, Lane.ofKey?, hu, h1, h2, h3]

/-- C7 amended: the two _transform versions agree on every slot whose
uppercased first description word is SLOW, MEDIUM or FAST, and on every slot
whose datetime fails to parse; on a parsing slot with an unrecognized first
word they differ exactly as the counterexample shows — main.py raises
KeyError where booker.py returns lane UNKNOWN.  (The matcher and booking
code of the two versions is textually identical.) -/
theorem C7_amended_transform_equiv (slot : RawSlot) :
    (pyUpper (firstWord slot.description) ∈ (["SLOW", "MEDIUM", "FAST"] : List String) →
      transformMain slot = transform slot) ∧
    (parseDatetime? slot.datetime = none →
      transformMain slot = transform slot) ∧
    (∀ h m, parseDatetime? slot.datetime = some (h, m) →
      laneOfKeyMain? (pyUpper (firstWord slot.description)) = none →
      transformMain slot = Except.error PyError.keyError ∧
      ∃ ns, transform slot = Except.ok ns ∧ ns.lane = Lane.UNKNOWN) := by
  refine ⟨?_, ?_, ?_⟩
  · intro hmem
    cases hp : parseDatetime? slot.datetime with
    | none => simp [transform, transformMain, hp]
    | some pr =>
      obtain ⟨h, m⟩ := pr
      simp only [List.mem_cons, List.not_mem_nil, or_false] at hmem
      rcases hmem with h1 | h1 | h1 <;>
        simp [transform, transformMain, hp, h1, laneOfKeyMain?, Lane.get,
          laneIndex, Lane.ofKey?]
  · intro hp
    simp [transform, transformMain, hp]
  · intro h m hp hkey
    constructor
    · simp [transformMain, hp, hkey]
    · exact ⟨{ start_time := (startTimeOf h m : Int)
               lane := Lane.get (pyUpper (firstWord slot.description))
               event_id := slot.id
               event_chain_id := slot.event_chain_id },
        by simp [transform, hp], laneGet_unknown_of_mainNone hkey⟩

/-- Slot with a recognized lane word for the C7 witness. -/
def c7SlotMed : RawSlot :=
  { datetime := "2021-01-01T08:00:00+0000"
    description := "Medium lane"
    id := 9
    event_chain_id := 10 }

/-- Witness for C7 amended: agreement at a MEDIUM slot, divergence at the
unrecognized-word slot. -/
theorem C7_amended_transform_equiv_witness :
    transformMain c7SlotMed = transform c7SlotMed ∧
    (transformMain c7Slot = Except.error PyError.keyError ∧
      ∃ ns, transform c7Slot = Except.ok ns ∧ ns.lane = Lane.UNKNOWN) :=
  ⟨(C7_amended_transform_equiv c7SlotMed).1 (by decide),
   (C7_amended_transform_equiv c7Slot).2.2 8 0 (by decide) (by decide)⟩

/-! ## C8 -/

/-- C8 counterexample environment: token unobtainable because the
confirmation form is missing. -/
def c8BadEnv : Env :=
  { loginScript := some "var SETTINGS = 1;"
    confirmFormAction := none
    confirmCodeValue := some "code"
    ssoAttrs := some ("sso", "cid")
    authInfo := { auth_token := none, embedded := none } }

/-- C8 counterexample: when the token cannot be obtained because a later
scrape step misses, construction fails with a generic AttributeError, not
with LoginError as the claim states. -/
theorem C8_counterexample :
    (construct "app-id" "app-key" c8BadEnv).1 = Except.error PyError.attributeError ∧
    isLoginError PyError.attributeError = false :=
  ⟨by decide, rfl⟩

theorem ssoTokenLookup_ok {a : AuthInfoJson} {t : String}
    (h : ssoTokenLookup a = Except.ok t) : a.auth_token = some t := by
  unfold ssoTokenLookup at h
  cases hw : a.auth_token with
  | none => simp [hw] at h
  | some x =>
    simp only [hw, Except.ok.injEq] at h
    rw [h]

theorem accessAuthInfo_empty_ok {env : Env} {v : AuthInfoJson} {st1 : BState}
    {tr : List NetAction}
    (h : accessAuthInfo env BState.empty = (Except.ok v, st1, tr)) :
    v = env.authInfo := by
  simp only [accessAuthInfo, BState.empty] at h
  rcases hls : loginSteps env BState.empty with ⟨res, st2, tr2⟩
  rw [BState.empty] at hls
  rw [hls] at h
  cases res with
  | error e => simp at h
  | ok tc =>
    simp only [Prod.mk.injEq, Except.ok.injEq] at h
    exact h.1.symm

theorem accessSsoToken_empty_token {env : Env} {tok : String} {st1 : BState}
    {tr : List NetAction}
    (h : accessSsoToken env BState.empty = (Except.ok tok, st1, tr)) :
    env.authInfo.auth_token = some tok := by
  simp only [accessSsoToken, BState.empty] at h
  rcases hai : accessAuthInfo env BState.empty with ⟨res, st2, tr2⟩
  rw [BState.empty] at hai
  rw [hai] at h
  cases res with
  | error e => simp at h
  | ok a =>
    have ha : a = env.authInfo := accessAuthInfo_empty_ok (by rw [BState.empty]; exact hai)
    cases htl : ssoTokenLookup a with
    | error e => simp [htl] at h
    | ok t =>
      simp only [htl, Prod.mk.injEq, Except.ok.injEq] at h
      rw [← ha, ssoTokenLookup_ok htl, h.1]

/-- Every request bookRun issues is tagged with the constructed session
headers. -/
theorem bookRun_headers (env : Env) (b : Booker) (rawEvents : List RawSlot)
    (today start : Int) (lane : Lane) (days_ahead : Int) :
    ∀ p ∈ (bookRun env b rawEvents today start lane days_ahead).2,
      p.2 = b.headers := by
  intro p hp
  cases hgs : get_slots_for rawEvents with
  | error e =>
    simp only [bookRun, hgs, List.mem_singleton] at hp
    rw [hp]
  | ok slots =>
    rcases hgfm : get_first_matching env b.state slots lane start with ⟨res, st2, tr2⟩
    cases res with
    | error e =>
      by_cases he : e = PyError.stopIteration
      · subst he
        simp [bookRun, hgs, hgfm] at hp
        rcases hp with hp | ⟨a, _, rfl⟩
        · rw [hp]
        · rfl
      · simp [bookRun, hgs, hgfm, he] at hp
        rcases hp with hp | ⟨a, _, rfl⟩
        · rw [hp]
        · rfl
    | ok req =>
      simp [bookRun, hgs, hgfm] at hp
      rcases hp with hp | ⟨a, _, rfl⟩ | hp | hp
      · rw [hp]
      · rfl
      · rw [hp]
      · rw [hp]

/-- C8 amended: on construction the session headers hold App-Id and App-Key
and the Auth-Token bearer token obtained from the auth exchange, and every
request a subsequent book call issues carries exactly those headers; when
the token cannot be obtained construction fails and produces no Booker —
with LoginError exactly when the SETTINGS scrape misses (other scrape
failures abort with a generic error, see C5). -/
theorem C8_amended_headers (appId appKey : String) (env : Env) :
    (∀ b tr, construct appId appKey env = (Except.ok b, tr) →
      b.headers.appId = some appId ∧ b.headers.appKey = some appKey ∧
      (∃ tok, b.headers.authToken = some tok ∧ env.authInfo.auth_token = some tok) ∧
      (∀ rawEvents today start lane days_ahead p,
        p ∈ (bookRun env b rawEvents today start lane days_ahead).2 →
        p.2 = b.headers)) ∧
    (∀ s0, env.loginScript = some s0 → settingsSearch s0 = none →
      (construct appId appKey env).1 =
        Except.error (PyError.loginError "Unable to scrape login config!")) := by
  constructor
  · intro b tr h
    unfold construct at h
    rcases hst : accessSsoToken env BState.empty with ⟨res, st2, tr2⟩
    rw [hst] at h
    cases res with
    | error e => simp at h
    | ok tok =>
      simp only [Prod.mk.injEq, Except.ok.injEq] at h
      obtain ⟨rfl, rfl⟩ := h
      refine ⟨rfl, rfl, ⟨tok, rfl, accessSsoToken_empty_token hst⟩, ?_⟩
      intro rawEvents today start lane days_ahead p hp
      exact bookRun_headers env _ rawEvents today start lane days_ahead p hp
  · intro s0 hls hss
    have hcfg : loginConfigScrape env =
        Except.error (PyError.loginError "Unable to scrape login config!") := by
      simp [loginConfigScrape, hls, hss]
    simp [construct, accessSsoToken, accessAuthInfo, loginSteps, accessLoginConfig,
      BState.empty, hcfg]

/-- Auth info for the C8 witness. -/
def c8AuthInfo : AuthInfoJson :=
  { auth_token := some "tok"
    embedded := some { members := some [{ id := some 5 }] } }

/-- Fully-working environment for the C8 witness. -/
def c8Env : Env :=
  { loginScript := some "var SETTINGS = 1;"
    confirmFormAction := some "act"
    confirmCodeValue := some "code"
    ssoAttrs := some ("sso", "cid")
    authInfo := c8AuthInfo }

/-- The Booker that construction on c8Env produces. -/
def c8Booker : Booker :=
  { headers := { appId := some "app-id", appKey := some "app-key", authToken := some "tok" }
    state :=
      { login_config := some "1"
        auth_info := some c8AuthInfo
        sso_token := some "tok"
        member_id := none } }

/-- Environment whose login page has a script tag but no SETTINGS pattern. -/
def c8BadSettingsEnv : Env :=
  { loginScript := some "a static page"
    confirmFormAction := some "act"
    confirmCodeValue := some "code"
    ssoAttrs := some ("sso", "cid")
    authInfo := { auth_token := none, embedded := none } }

/-- Witness for C8 amended: a successful construction carries the three
headers on every booking request, and a SETTINGS miss makes construction
fail with LoginError. -/
theorem C8_amended_headers_witness :
    (c8Booker.headers.appId = some "app-id" ∧
      c8Booker.headers.appKey = some "app-key" ∧
      (∃ tok, c8Booker.headers.authToken = some tok ∧
        c8Env.authInfo.auth_token = some tok) ∧
      (∀ rawEvents today start lane days_ahead p,
        p ∈ (bookRun c8Env c8Booker rawEvents today start lane days_ahead).2 →
        p.2 = c8Booker.headers)) ∧
    (construct "app-id" "app-key" c8BadSettingsEnv).1 =
      Except.error (PyError.loginError "Unable to scrape login config!") :=
  ⟨(C8_amended_headers "app-id" "app-key" c8Env).1 c8Booker
      [NetAction.getLoginPage, NetAction.postCredentials, NetAction.getConfirmed,
        NetAction.postCode, NetAction.postSsoExchange] (by decide),
   (C8_amended_headers "app-id" "app-key" c8BadSettingsEnv).2 "a static page" rfl
      (by decide)⟩

/-! ## C9 -/

/-- C9: whenever main() runs at a London hour different from the configured
booking-open hour, it returns the skipped outcome with an empty request
trace: no login, no booking network call, for every invocation the CLI can
produce (the parser defines no bypass flag, so the gate is unconditional). -/
theorem C9_hour_gate (bookingOpenTime : Nat) (appId appKey : String)
    (hour : Nat) (args : Args) (env : Env) (rawEvents : List RawSlot)
    (today : Int) (hne : hour ≠ bookingOpenTime) :
    mainRun bookingOpenTime appId appKey hour args env rawEvents today =
      (MainOutcome.skipped, []) := by
  simp [mainRun, hne]

/-- Arguments for the C9 witness. -/
def c9Args : Args :=
  { start_time := 900, lane := Lane.MEDIUM, days_ahead := 8, env_path := ".env" }

/-- Inert environment for the C9 witness (never touched). -/
def c9Env : Env :=
  { loginScript := none
    confirmFormAction := none
    confirmCodeValue := none
    ssoAttrs := none
    authInfo := { auth_token := none, embedded := none } }

/-- Witness for C9: at hour 9 with booking-open hour 7, main skips with no
network actions. -/
theorem C9_hour_gate_witness :
    (9 : Nat) ≠ (7 : Nat) ∧
    mainRun 7 "app-id" "app-key" 9 c9Args c9Env [] 0 =
      (MainOutcome.skipped, []) :=
  ⟨by decide, C9_hour_gate 7 "app-id" "app-key" 9 c9Args c9Env [] 0 (by decide)⟩

/-! ## C10 -/

/-- C10: the member-id subscript chain returns the id of the first member
record when the embedded members list is non-empty (and the record has an
id); an empty members list raises IndexError, a missing `_embedded` or
`members` key raises KeyError, and the result is never a LoginError. -/
theorem C10_member_id (a : AuthInfoJson) :
    (∀ e m rest, a.embedded = some e → e.members = some (m :: rest) →
      ∀ i, m.id = some i → memberIdLookup a = Except.ok i) ∧
    (∀ e, a.embedded = some e → e.members = some [] →
      memberIdLookup a = Except.error PyError.indexError) ∧
    (a.embedded = none → memberIdLookup a = Except.error PyError.keyError) ∧
    (∀ e, a.embedded = some e → e.members = none →
      memberIdLookup a = Except.error PyError.keyError) ∧
    (∀ msg, memberIdLookup a ≠ Except.error (PyError.loginError msg)) := by
  refine ⟨?_, ?_, ?_, ?_, ?_⟩
  · intro e m rest he hm i hi
    simp [memberIdLookup, he, hm, hi]
  · intro e he hm
    simp [memberIdLookup, he, hm]
  · intro he
    simp [memberIdLookup, he]
  · intro e he hm
    simp [memberIdLookup, he, hm]
  · intro msg
    unfold memberIdLookup
    rcases a with ⟨tok, emb⟩
    cases emb with
    | none => simp
    | some e =>
      rcases e with ⟨ms⟩
      cases ms with
      | none => simp
      | some l =>
        cases l with
        | nil => simp
        | cons m rest =>
          rcases m with ⟨mid⟩
          cases mid <;> simp

/-- Auth info with one member (id 42). -/
def c10Good : AuthInfoJson :=
  { auth_token := none, embedded := some { members := some [{ id := some 42 }] } }

/-- Auth info with an empty members list. -/
def c10Empty : AuthInfoJson :=
  { auth_token := none, embedded := some { members := some [] } }

/-- Auth info with no `_embedded` key. -/
def c10NoEmb : AuthInfoJson :=
  { auth_token := none, embedded := none }

/-- Auth info whose `_embedded` object has no `members` key. -/
def c10NoMembers : AuthInfoJson :=
  { auth_token := none, embedded := some { members := none } }

/-- Witness for C10 at concrete auth-info values. -/
theorem C10_member_id_witness :
    memberIdLookup c10Good = Except.ok 42 ∧
    memberIdLookup c10Empty = Except.error PyError.indexError ∧
    memberIdLookup c10NoEmb = Except.error PyError.keyError ∧
    memberIdLookup c10NoMembers = Except.error PyError.keyError ∧
    memberIdLookup c10Empty ≠ Except.error (PyError.loginError "boom") :=
  ⟨(C10_member_id c10Good).1 { members := some [{ id := some 42 }] } { id := some 42 } []
      rfl rfl 42 rfl,
   (C10_member_id c10Empty).2.1 { members := some [] } rfl rfl,
   (C10_member_id c10NoEmb).2.2.1 rfl,
   (C10_member_id c10NoMembers).2.2.2.1 { members := none } rfl rfl,
   (C10_member_id c10Empty).2.2.2.2 "boom"⟩
